import Mathlib

/-!
# Verification of the vaulter orchestration core

A shallow embedding, in Lean 4, of the vaulter repository's orchestration
logic: mount-existence checks, child-token issuance, the cubbyhole
scoped-secret read/write protocol, PKI role comparison, and the root-CA
presence probe.  The Go functions of `vaulter.go`, `mounts.go` and
`certs.go` are generic over narrow capability interfaces (stub-friendly
collaborators); those interfaces become Lean structures of functions, and
each Go function becomes a pure Lean function over such a structure.
Go's `interface\x7b\x7d` values stored in secret data are modelled by
`GoValue`; a Go `error` is modelled by its message (`Option String`,
`none` = nil); Go panics that the code can actually reach (unchecked type
assertions, nil dereference) are modelled by a dedicated `GoResult`
constructor rather than being glossed over.

Functions that create clients and perform data-plane writes/reads also
return a trace of the primitive client operations they performed
(`Event`), so that client-isolation properties can be stated.
-/

set_option autoImplicit false

namespace Vaulter

/-- A Go `interface\x7b\x7d` value as it appears inside secret data maps:
a string, a boolean, the untyped nil interface, or (for panics) anything
else is represented by the constructors below. -/
inductive GoValue where
  | vString (s : String)
  | vBool (b : Bool)
  | vNull
  deriving DecidableEq, Repr

/-- Go's `map[string]interface\x7b\x7d`, as an association list (first
match wins on lookup, matching a map where keys are unique). -/
abbrev DataMap := List (String × GoValue)

/-- `vault.SecretAuth`: the authorization block of a secret; only the
`ClientToken` field is consulted by this code. -/
structure SecretAuth where
  clientToken : String
  deriving DecidableEq, Repr

/-- `vault.Secret`: the server response to a logical read/write.  `auth`
models the possibly-nil `*SecretAuth` pointer and `data` the possibly-nil
`map[string]interface\x7b\x7d`. -/
structure Secret where
  auth : Option SecretAuth := none
  data : Option DataMap := none
  deriving DecidableEq, Repr

/-- `vault.Config`: connection configuration; opaque to the orchestration
logic, which only passes it through to `NewClient`. -/
structure VaultConfig where
  address : String := ""
  deriving DecidableEq, Repr, Inhabited

/-- `vault.Client`: a client handle.  The orchestration code only ever
observes one piece of client state: the token set on it by `SetToken`
(`VaultAPI.SetToken` calls `client.SetToken(t)`); a freshly created
client carries the empty token. -/
structure Client where
  token : String := ""
  deriving DecidableEq, Repr, Inhabited

/-- A primitive client operation performed by an orchestration function,
recorded so that the client-per-credential discipline can be stated. -/
inductive Event where
  | evNewClient (c : Client)
  | evSetToken (c : Client) (t : String)
  | evWrite (c : Client) (path : String) (data : DataMap)
  | evRead (c : Client) (path : String)
  deriving DecidableEq, Repr

/-- The outcome of a Go function returning `(T, error)`: a value with nil
error, a non-nil error (identified by its message), or a runtime panic
(which in Go is not an error return at all). -/
inductive GoResult (α : Type) where
  | ok (val : α)
  | err (msg : String)
  | panicked (msg : String)
  deriving DecidableEq, Repr

/-- True exactly on the `panicked` constructor. -/
def GoResult.isPanic {α : Type} : GoResult α → Bool
  | .panicked _ => true
  | _ => false

/-- `vault.MountConfigInput`: lease bounds for a mount. -/
structure MountConfigInput where
  defaultLeaseTTL : String := ""
  maxLeaseTTL : String := ""
  deriving DecidableEq, Repr

/-- `vault.MountInput`: the request body for mounting a backend. -/
structure MountInput where
  typ : String
  description : String
  config : MountConfigInput
  deriving DecidableEq, Repr

/-- `vault.MountOutput`: metadata of an existing mount; the orchestration
code never inspects its fields, only the map keys. -/
structure MountOutput where
  typ : String := ""
  description : String := ""
  deriving DecidableEq, Repr

/-- The `Mounter` capability interface: `Mount(path, *MountInput) error`. -/
structure Mounter where
  mount : String → MountInput → Option String

/-- The `MountLister` capability interface:
`ListMounts() (map[string]*MountOutput, error)`.  The map is modelled as
an association list of its entries. -/
structure MountLister where
  listMounts : Except String (List (String × MountOutput))

/-- `vault.TokenAuth`: the token-auth handle; opaque here. -/
structure TokenAuth where
  dummy : Unit := ()
  deriving DecidableEq, Repr

/-- `vault.TokenCreateRequest`: options for token creation; the code only
sets `NumUses`. -/
structure TokenCreateRequest where
  numUses : Nat := 0
  deriving DecidableEq, Repr

/-- The `Tokener` capability interface: `Token() *TokenAuth` and
`CreateToken(ta, opts) (*Secret, error)`. -/
structure Tokener where
  token : TokenAuth
  createToken : TokenAuth → TokenCreateRequest → Option Secret × Option String

/-- The `CubbyholeWriter` capability interface (`ClientCreator`,
`ConfigGetter`, `TokenSetter`, `MountWriter`).  `SetToken` is the
concrete `VaultAPI.SetToken` semantics (set the token on the client), so
it is not a field here; `write` models
`Write(c, path, data) (*Secret, error)`. -/
structure CubbyholeWriter where
  getConfig : VaultConfig
  newClient : VaultConfig → Except String Client
  write : Client → String → DataMap → Option Secret × Option String

/-- The `CubbyholeReader` capability interface (`ClientCreator`,
`ConfigGetter`, `TokenSetter`, `MountReader`);
`read` models `Read(c, path) (*Secret, error)`. -/
structure CubbyholeReader where
  getConfig : VaultConfig
  newClient : VaultConfig → Except String Client
  read : Client → String → Option Secret × Option String

/-- The `PKIChecker` capability interface (`ClientCreator`,
`ConfigGetter`, `MountWriter` — and deliberately no `TokenSetter`). -/
structure PKIChecker where
  getConfig : VaultConfig
  newClient : VaultConfig → Except String Client
  write : Client → String → DataMap → Option Secret × Option String

/-- The `Roller` capability interface (`ClientGetter`, `MountWriter`,
`MountReader`): role operations reuse the stored client. -/
structure Roller where
  client : Client
  write : Client → String → DataMap → Option Secret × Option String
  read : Client → String → Option Secret × Option String

/-- `strconv.FormatBool`. -/
def formatBool (b : Bool) : String :=
  if b then "true" else "false"

/-- `IsMounted` from `mounts.go`: list the mounts and report whether the
given path occurs as an exact key (the Go loop `for m := range mounts`
with `m == path`). -/
def IsMounted (l : MountLister) (path : String) : Bool × Option String :=
  match l.listMounts with
  | .error e => (false, some e)
  | .ok mounts => (mounts.any fun kv => kv.fst == path, none)

/-- The `MountInput` built by `MountCubbyhole` in `vaulter.go`. -/
def cubbyholeMountInput : MountInput :=
  { typ := "cubbyhole"
    description := "A cubbyhole mount for iRODS configs"
    config := {} }

/-- `MountCubbyhole` from `vaulter.go`: mount the cubbyhole backend at
`"cubbyhole/"`. -/
def MountCubbyhole (m : Mounter) : Option String :=
  m.mount "cubbyhole/" cubbyholeMountInput

/-- `ChildToken` from `vaulter.go`: create a two-use child token and
validate the response.  Note the Go code dereferences `secret.Auth`
without a nil check on `secret` itself, so a nil secret with nil error
panics. -/
def ChildToken (t : Tokener) : GoResult String :=
  let opts : TokenCreateRequest := { numUses := 2 }
  let ta := t.token
  match t.createToken ta opts with
  | (_, some e) => .err e
  | (none, none) => .panicked "runtime error: invalid memory address or nil pointer dereference"
  | (some secret, none) =>
    match secret.auth with
    | none => .err "SecretAuth was nil"
    | some auth =>
      if auth.clientToken = "" then .err "ClientToken was empty"
      else .ok auth.clientToken

/-- `WriteToCubbyhole` from `vaulter.go`: create a new client from the
configuration, set the token on it, and write
`\x7b"irods-config": content\x7d` to `cubbyhole/<token>`.  Returns the Go
error (`none` = success) together with the trace of client operations
performed. -/
def WriteToCubbyhole (cw : CubbyholeWriter) (token content : String) :
    Option String × List Event :=
  match cw.newClient cw.getConfig with
  | .error e => (some e, [])
  | .ok client =>
    let client' : Client := { client with token := token }
    let writePath := "cubbyhole/" ++ token
    let data : DataMap := [("irods-config", GoValue.vString content)]
    let tr := [Event.evNewClient client, Event.evSetToken client token,
               Event.evWrite client' writePath data]
    match cw.write client' writePath data with
    | (_, some e) => (some e, tr)
    | (_, none) => (none, tr)

/-- `ReadFromCubbyhole` from `vaulter.go`: create a new client, set the
token on it, read `cubbyhole/<token>`, and extract the
`"irods-config"` entry, with the source's checks in source order: read
error, nil secret, nil data, missing key, nil value, then the unchecked
type assertion `.(string)` (which panics on a non-nil non-string
value). -/
def ReadFromCubbyhole (cr : CubbyholeReader) (token : String) :
    GoResult String × List Event :=
  match cr.newClient cr.getConfig with
  | .error e => (.err e, [])
  | .ok client =>
    let client' : Client := { client with token := token }
    let readPath := "cubbyhole/" ++ token
    let tr := [Event.evNewClient client, Event.evSetToken client token,
               Event.evRead client' readPath]
    match cr.read client' readPath with
    | (_, some e) => (.err e, tr)
    | (none, none) => (.err "secret is nil", tr)
    | (some secret, none) =>
      match secret.data with
      | none => (.err "data is nil", tr)
      | some d =>
        match d.lookup "irods-config" with
        | none => (.err "data did not contain irods-config", tr)
        | some v =>
          if v = GoValue.vNull then (.err "irods-config is nil", tr)
          else
            match v with
            | GoValue.vString s => (.ok s, tr)
            | _ => (.panicked "interface conversion: the value is not a string", tr)

/-- The literal error-message suffix the server emits when the PKI
backend has no CA configured; `HasRootCert` matches on it. -/
def caMissingSuffix : String :=
  "backend must be configured with a CA certificate/key"

/-- `strings.HasSuffix(s, suffix)`: the suffix test on the underlying
character sequences. -/
def goHasSuffix (s sfx : String) : Bool :=
  sfx.data.isSuffixOf s.data

/-- `HasRootCert` from `certs.go`: create a new client (no token is ever
set on it — `PKIChecker` has no `TokenSetter`), attempt to issue a cert
at `pki/issue/<role>`, and interpret the outcome: success means the root
CA exists; a write error ending in `caMissingSuffix` means it does not
(error swallowed); any other error is propagated.  Also returns the
trace of client operations. -/
def HasRootCert (m : PKIChecker) (role commonName : String) :
    (Bool × Option String) × List Event :=
  match m.newClient m.getConfig with
  | .error e => ((false, some e), [])
  | .ok client =>
    let writePath := "pki/issue/" ++ role
    let data : DataMap := [("common_name", GoValue.vString commonName)]
    let tr := [Event.evNewClient client, Event.evWrite client writePath data]
    match m.write client writePath data with
    | (_, some e) =>
      if goHasSuffix e caMissingSuffix then ((false, none), tr)
      else ((false, some e), tr)
    | (_, none) => ((true, none), tr)

/-- `HasRole` from `vaulter.go`: read `pki/roles/<roleName>` with the
stored client and compare `allowed_domains` against `domains` and
`allow_subdomains` against `strconv.FormatBool(subdomains)`; every
shortfall other than a read error yields `(false, nil)`.  Go's `!=`
between an `interface\x7b\x7d` value and a string is inequality of
`GoValue` against `GoValue.vString`. -/
def HasRole (r : Roller) (roleName domains : String) (subdomains : Bool) :
    Bool × Option String :=
  let readPath := "pki/roles/" ++ roleName
  match r.read r.client readPath with
  | (_, some e) => (false, some e)
  | (none, none) => (false, none)
  | (some secret, none) =>
    match secret.data with
    | none => (false, none)
    | some d =>
      match d.lookup "allowed_domains" with
      | none => (false, none)
      | some v =>
        if v ≠ GoValue.vString domains then (false, none)
        else
          match d.lookup "allow_subdomains" with
          | none => (false, none)
          | some v2 =>
            if v2 ≠ GoValue.vString (formatBool subdomains) then (false, none)
            else (true, none)

/-- The extraction of the fixed `"irods-config"` key, as a function of
nothing but that key's lookup result; `ReadFromCubbyhole`'s tail is
proved equal to it (claim about no other key being consulted). -/
def extractIrodsConfig : Option GoValue → GoResult String
  | none => .err "data did not contain irods-config"
  | some v =>
    if v = GoValue.vNull then .err "irods-config is nil"
    else
      match v with
      | GoValue.vString s => .ok s
      | _ => .panicked "interface conversion: the value is not a string"

/-- A store mapping paths to data maps: the model of a server that
faithfully retains writes. -/
abbrev Store := List (String × DataMap)

/-- Apply one traced event to the store: a write installs its data at its
path; everything else leaves the store unchanged. -/
def applyEvent (st : Store) : Event → Store
  | .evWrite _ path d => (path, d) :: st
  | _ => st

/-- Apply a whole trace of events to the store, in order. -/
def applyTrace (st : Store) (tr : List Event) : Store :=
  tr.foldl applyEvent st

/-- A `CubbyholeWriter` backed by a faithfully-retaining server: client
creation succeeds and every write is accepted (the retained data is
recovered from the trace by `applyTrace`). -/
def storeWriter : CubbyholeWriter where
  getConfig := {}
  newClient := fun _ => .ok {}
  write := fun _ _ _ => (some {}, none)

/-- A `CubbyholeReader` backed by the given store: client creation
succeeds and a read returns the stored data at the path, or a nil secret
when the path holds nothing. -/
def storeReader (st : Store) : CubbyholeReader where
  getConfig := {}
  newClient := fun _ => .ok {}
  read := fun _ path =>
    match st.lookup path with
    | none => (none, none)
    | some d => (some { data := some d }, none)

/-- True when the trace contains a data-plane write. -/
def hasWriteEvent (tr : List Event) : Bool :=
  tr.any fun e =>
    match e with
    | .evWrite _ _ _ => true
    | _ => false

/-- True when the trace contains a `SetToken` call binding the given
credential to a client. -/
def hasSetTokenEvent (tr : List Event) (t : String) : Bool :=
  tr.any fun e =>
    match e with
    | .evSetToken _ t' => t' == t
    | _ => false

/-- True when every data-plane write or read in the trace is performed
with a client whose token is the given credential. -/
def allOpsBoundTo (tr : List Event) (t : String) : Bool :=
  tr.all fun e =>
    match e with
    | .evWrite c _ _ => c.token == t
    | .evRead c _ => c.token == t
    | _ => true

/-- True when the trace contains any `SetToken` call at all. -/
def hasAnySetToken (tr : List Event) : Bool :=
  tr.any fun e =>
    match e with
    | .evSetToken _ _ => true
    | _ => false

/-- The paths of the data-plane writes in a trace, in order. -/
def writePaths (tr : List Event) : List String :=
  tr.filterMap fun e =>
    match e with
    | .evWrite _ p _ => some p
    | _ => none

/-- The paths of the data-plane reads in a trace, in order. -/
def readPaths (tr : List Event) : List String :=
  tr.filterMap fun e =>
    match e with
    | .evRead _ p => some p
    | _ => none

/-- The data maps of the data-plane writes in a trace, in order. -/
def writeDataMaps (tr : List Event) : List DataMap :=
  tr.filterMap fun e =>
    match e with
    | .evWrite _ _ d => some d
    | _ => none

/-- A mount listing as it stands after mounting the cubbyhole and pki
backends (the stub listing the repository's tests use). -/
def listerAfterMount : MountLister where
  listMounts := .ok [("cubbyhole/", {}), ("pki/", {})]

/-- A mount listing whose retrieval fails. -/
def listerFailing : MountLister where
  listMounts := .error "test error"

/-- C2: for every path and mount listing, `IsMounted` propagates a
listing failure as `(false, error)`, otherwise answers with no error and
truth exactly when the path is an exact key of the listing; it never
returns `true` together with a non-nil error. -/
theorem isMounted_spec (l : MountLister) (path : String) :
    (∀ e, l.listMounts = .error e → IsMounted l path = (false, some e)) ∧
    (∀ ms, l.listMounts = .ok ms →
      (IsMounted l path).2 = none ∧
      ((IsMounted l path).1 = true ↔ path ∈ ms.map Prod.fst)) ∧
    ((IsMounted l path).1 = true → (IsMounted l path).2 = none) := by
  refine ⟨?_, ?_, ?_⟩
  · intro e he
    simp [IsMounted, he]
  · intro ms hms
    constructor
    · simp [IsMounted, hms]
    · simp [IsMounted, hms, List.any_eq_true, List.mem_map]
  · intro h
    cases hl : l.listMounts with
    | error e => simp [IsMounted, hl] at h
    | ok ms => simp [IsMounted, hl]

/-- Witness for C2: on the post-mount listing, `"cubbyhole/"` is found
with nil error, `"cubbyhole"` (no trailing separator) is not, and a
failing listing is propagated as `(false, error)`. -/
theorem isMounted_spec_witness :
    IsMounted listerFailing "cubbyhole/" = (false, some "test error") ∧
    IsMounted listerAfterMount "cubbyhole/" = (true, none) ∧
    IsMounted listerAfterMount "cubbyhole" = (false, none) :=
  ⟨(isMounted_spec listerFailing "cubbyhole/").1 "test error" rfl,
   by decide, by decide⟩

/-- C6: writing a value to the cubbyhole under a token and reading it
back with the same token, against a store that faithfully retains
writes, returns exactly the written value with nil error, and both
operations address the single path `cubbyhole/<token>`. -/
theorem cubbyhole_roundtrip (st : Store) (t v : String) :
    (WriteToCubbyhole storeWriter t v).1 = none ∧
    (ReadFromCubbyhole
        (storeReader (applyTrace st (WriteToCubbyhole storeWriter t v).2)) t).1 =
      .ok v ∧
    writePaths (WriteToCubbyhole storeWriter t v).2 = ["cubbyhole/" ++ t] ∧
    readPaths (ReadFromCubbyhole
        (storeReader (applyTrace st (WriteToCubbyhole storeWriter t v).2)) t).2 =
      ["cubbyhole/" ++ t] := by
  refine ⟨?_, ?_, ?_, ?_⟩ <;>
    simp [WriteToCubbyhole, ReadFromCubbyhole, storeWriter, storeReader,
      applyTrace, applyEvent, List.lookup, writePaths, readPaths]

/-- A mounter that reports back the path, type and description it was
asked to mount, so the mount request's contents can be observed. -/
def recordMounter : Mounter where
  mount := fun p mi => some (p ++ "|" ++ mi.typ ++ "|" ++ mi.description)

/-- A mounter that reports back only the description of the requested
mount. -/
def descProbeMounter : Mounter where
  mount := fun _ mi => some mi.description

/-- Counterexample for C8: the description `MountCubbyhole` passes to
the mount request is `"A cubbyhole mount for iRODS configs"`, not
`"A cubbyhole mount for configs"` as claimed. -/
theorem mountScenario_counterexample :
    MountCubbyhole descProbeMounter = some "A cubbyhole mount for iRODS configs" ∧
    MountCubbyhole descProbeMounter ≠ some "A cubbyhole mount for configs" := by
  constructor
  · rfl
  · decide

/-- C8 (amended): the end-to-end scenario with the code's actual
description: the cubbyhole backend is mounted at `"cubbyhole/"` with
type `"cubbyhole"` and description `"A cubbyhole mount for iRODS
configs"`; afterwards `IsMounted "cubbyhole/"` is true with nil error;
writing `"payload"` under credential `"tok1"` succeeds and reading it
back with `"tok1"` yields exactly `"payload"`. -/
theorem mountScenario_amended :
    MountCubbyhole recordMounter =
      some "cubbyhole/|cubbyhole|A cubbyhole mount for iRODS configs" ∧
    IsMounted listerAfterMount "cubbyhole/" = (true, none) ∧
    (WriteToCubbyhole storeWriter "tok1" "payload").1 = none ∧
    (ReadFromCubbyhole
        (storeReader (applyTrace [] (WriteToCubbyhole storeWriter "tok1" "payload").2))
        "tok1").1 = .ok "payload" := by
  refine ⟨rfl, by decide, rfl, by decide⟩

/-- C1: for every role and common name, `HasRootCert` returns
`(true, nil)` when the probe write succeeds, `(false, nil)` exactly when
the write fails with an error ending in the CA-missing suffix, and
`(false, e)` with the error propagated unchanged for any other write
failure and for client-creation failure. -/
theorem hasRootCert_spec (m : PKIChecker) (role commonName : String) :
    (∀ e, m.newClient m.getConfig = .error e →
      (HasRootCert m role commonName).1 = (false, some e)) ∧
    (∀ c, m.newClient m.getConfig = .ok c →
      ((m.write c ("pki/issue/" ++ role)
          [("common_name", GoValue.vString commonName)]).2 = none →
        (HasRootCert m role commonName).1 = (true, none)) ∧
      (∀ e, (m.write c ("pki/issue/" ++ role)
          [("common_name", GoValue.vString commonName)]).2 = some e →
        goHasSuffix e caMissingSuffix = true →
        (HasRootCert m role commonName).1 = (false, none)) ∧
      (∀ e, (m.write c ("pki/issue/" ++ role)
          [("common_name", GoValue.vString commonName)]).2 = some e →
        goHasSuffix e caMissingSuffix = false →
        (HasRootCert m role commonName).1 = (false, some e))) ∧
    ((HasRootCert m role commonName).1 = (false, none) ↔
      ∃ c e, m.newClient m.getConfig = .ok c ∧
        (m.write c ("pki/issue/" ++ role)
          [("common_name", GoValue.vString commonName)]).2 = some e ∧
        goHasSuffix e caMissingSuffix = true) := by
  refine ⟨?_, ?_, ?_⟩
  · intro e he
    simp [HasRootCert, he]
  · intro c hc
    refine ⟨?_, ?_, ?_⟩
    · intro hw
      cases hww : m.write c ("pki/issue/" ++ role)
          [("common_name", GoValue.vString commonName)] with
      | mk s err =>
        rw [hww] at hw
        subst hw
        simp [HasRootCert, hc, hww]
    · intro e hw hsfx
      cases hww : m.write c ("pki/issue/" ++ role)
          [("common_name", GoValue.vString commonName)] with
      | mk s err =>
        rw [hww] at hw
        subst hw
        simp [HasRootCert, hc, hww, hsfx]
    · intro e hw hsfx
      cases hww : m.write c ("pki/issue/" ++ role)
          [("common_name", GoValue.vString commonName)] with
      | mk s err =>
        rw [hww] at hw
        subst hw
        simp [HasRootCert, hc, hww, hsfx]
  · cases hc : m.newClient m.getConfig with
    | error e =>
      simp [HasRootCert, hc]
    | ok c =>
      cases hww : m.write c ("pki/issue/" ++ role)
          [("common_name", GoValue.vString commonName)] with
      | mk s err =>
        cases err with
        | none => simp [HasRootCert, hc, hww]
        | some e =>
          by_cases hsfx : goHasSuffix e caMissingSuffix = true
          · simp [HasRootCert, hc, hww, hsfx]
          · simp [HasRootCert, hc, hww, hsfx]

/-- A PKI probe environment whose write fails with exactly the
CA-missing message, as in the repository's `TestHasRootCert`. -/
def caProbeEnv : PKIChecker where
  getConfig := {}
  newClient := fun _ => .ok {}
  write := fun _ _ _ => (none, some caMissingSuffix)

/-- Witness for C1: against a server whose probe write fails with the
CA-missing message, `HasRootCert` reports `(false, nil)`. -/
theorem hasRootCert_spec_witness :
    (HasRootCert caProbeEnv "example-dot-com" "test.example.com").1 = (false, none) :=
  ((hasRootCert_spec caProbeEnv "example-dot-com" "test.example.com").2.1
    {} rfl).2.1 caMissingSuffix rfl (by decide)

/-- C3: once a client is created, the scoped-secret read fails with five
distinct conditions, checked in source order: (a) a read error is
propagated verbatim, (b) a nil secret, (c) a nil data container, (d) a
data container without the `"irods-config"` key, (e) a present key with
a nil value; the four fixed messages of (b)-(e) are pairwise distinct. -/
theorem readFromCubbyhole_errors (cr : CubbyholeReader) (token : String)
    (c : Client) (hc : cr.newClient cr.getConfig = .ok c) :
    (∀ s e, cr.read { c with token := token } ("cubbyhole/" ++ token) = (s, some e) →
      (ReadFromCubbyhole cr token).1 = .err e) ∧
    (cr.read { c with token := token } ("cubbyhole/" ++ token) = (none, none) →
      (ReadFromCubbyhole cr token).1 = .err "secret is nil") ∧
    (∀ s, cr.read { c with token := token } ("cubbyhole/" ++ token) = (some s, none) →
      s.data = none →
      (ReadFromCubbyhole cr token).1 = .err "data is nil") ∧
    (∀ s d, cr.read { c with token := token } ("cubbyhole/" ++ token) = (some s, none) →
      s.data = some d → d.lookup "irods-config" = none →
      (ReadFromCubbyhole cr token).1 = .err "data did not contain irods-config") ∧
    (∀ s d, cr.read { c with token := token } ("cubbyhole/" ++ token) = (some s, none) →
      s.data = some d → d.lookup "irods-config" = some GoValue.vNull →
      (ReadFromCubbyhole cr token).1 = .err "irods-config is nil") ∧
    ("secret is nil" ≠ "data is nil" ∧
     "secret is nil" ≠ "data did not contain irods-config" ∧
     "secret is nil" ≠ "irods-config is nil" ∧
     "data is nil" ≠ "data did not contain irods-config" ∧
     "data is nil" ≠ "irods-config is nil" ∧
     "data did not contain irods-config" ≠ "irods-config is nil") := by
  refine ⟨?_, ?_, ?_, ?_, ?_, by decide⟩
  · intro s e hr
    simp [ReadFromCubbyhole, hc, hr]
  · intro hr
    simp [ReadFromCubbyhole, hc, hr]
  · intro s hr hd
    simp [ReadFromCubbyhole, hc, hr, hd]
  · intro s d hr hd hl
    simp [ReadFromCubbyhole, hc, hr, hd, hl]
  · intro s d hr hd hl
    simp [ReadFromCubbyhole, hc, hr, hd, hl]

/-- A reader whose transport read fails. -/
def readerErr : CubbyholeReader where
  getConfig := {}
  newClient := fun _ => .ok {}
  read := fun _ _ => (none, some "read error")

/-- A reader that returns a nil secret with nil error. -/
def readerNilSecret : CubbyholeReader where
  getConfig := {}
  newClient := fun _ => .ok {}
  read := fun _ _ => (none, none)

/-- A reader that returns a secret whose data container is nil. -/
def readerNilData : CubbyholeReader where
  getConfig := {}
  newClient := fun _ => .ok {}
  read := fun _ _ => (some {}, none)

/-- A reader that returns secret data without the `"irods-config"`
key. -/
def readerNoKey : CubbyholeReader where
  getConfig := {}
  newClient := fun _ => .ok {}
  read := fun _ _ => (some { data := some [] }, none)

/-- A reader that returns secret data whose `"irods-config"` value is
nil. -/
def readerNullVal : CubbyholeReader where
  getConfig := {}
  newClient := fun _ => .ok {}
  read := fun _ _ => (some { data := some [("irods-config", GoValue.vNull)] }, none)

/-- Witness for C3: the five failure conditions each produce their own
error on concrete environments. -/
theorem readFromCubbyhole_errors_witness :
    (ReadFromCubbyhole readerErr "t").1 = .err "read error" ∧
    (ReadFromCubbyhole readerNilSecret "t").1 = .err "secret is nil" ∧
    (ReadFromCubbyhole readerNilData "t").1 = .err "data is nil" ∧
    (ReadFromCubbyhole readerNoKey "t").1 = .err "data did not contain irods-config" ∧
    (ReadFromCubbyhole readerNullVal "t").1 = .err "irods-config is nil" :=
  ⟨(readFromCubbyhole_errors readerErr "t" {} rfl).1 none "read error" rfl,
   (readFromCubbyhole_errors readerNilSecret "t" {} rfl).2.1 rfl,
   (readFromCubbyhole_errors readerNilData "t" {} rfl).2.2.1 {} rfl rfl,
   (readFromCubbyhole_errors readerNoKey "t" {} rfl).2.2.2.1
     { data := some [] } [] rfl rfl rfl,
   (readFromCubbyhole_errors readerNullVal "t" {} rfl).2.2.2.2.1
     { data := some [("irods-config", GoValue.vNull)] }
     [("irods-config", GoValue.vNull)] rfl rfl rfl⟩

/-- C4: `HasRole` propagates only a read failure as an error; a nil
secret, nil data, a missing field, or a mismatched field all yield
`(false, nil)`; and it yields `(true, nil)` exactly when
`allowed_domains` equals the requested domains string and
`allow_subdomains` equals the `strconv.FormatBool` serialization of the
requested boolean. -/
theorem hasRole_spec (r : Roller) (roleName domains : String) (subdomains : Bool) :
    (∀ s e, r.read r.client ("pki/roles/" ++ roleName) = (s, some e) →
      HasRole r roleName domains subdomains = (false, some e)) ∧
    (r.read r.client ("pki/roles/" ++ roleName) = (none, none) →
      HasRole r roleName domains subdomains = (false, none)) ∧
    (∀ s, r.read r.client ("pki/roles/" ++ roleName) = (some s, none) →
      s.data = none →
      HasRole r roleName domains subdomains = (false, none)) ∧
    (∀ s d, r.read r.client ("pki/roles/" ++ roleName) = (some s, none) →
      s.data = some d →
      HasRole r roleName domains subdomains =
        (if d.lookup "allowed_domains" = some (GoValue.vString domains) ∧
            d.lookup "allow_subdomains" =
              some (GoValue.vString (formatBool subdomains))
         then (true, none) else (false, none))) := by
  refine ⟨?_, ?_, ?_, ?_⟩
  · intro s e hr
    simp [HasRole, hr]
  · intro hr
    simp [HasRole, hr]
  · intro s hr hd
    simp [HasRole, hr, hd]
  · intro s d hr hd
    cases hl1 : d.lookup "allowed_domains" with
    | none => simp [HasRole, hr, hd, hl1]
    | some v =>
      by_cases hv : v = GoValue.vString domains
      · subst hv
        cases hl2 : d.lookup "allow_subdomains" with
        | none => simp [HasRole, hr, hd, hl1, hl2]
        | some v2 =>
          by_cases hv2 : v2 = GoValue.vString (formatBool subdomains)
          · subst hv2
            simp [HasRole, hr, hd, hl1, hl2]
          · simp [HasRole, hr, hd, hl1, hl2, hv2]
      · simp [HasRole, hr, hd, hl1, hv]

/-- A roller whose role data stores both fields as strings, with the
boolean serialized as `"true"` (as `CreateRole` writes it). -/
def rollerStringBool : Roller where
  client := {}
  write := fun _ _ _ => (some {}, none)
  read := fun _ _ =>
    (some { data := some [("allowed_domains", GoValue.vString "foo.com"),
                          ("allow_subdomains", GoValue.vString "true")] }, none)

/-- A roller whose role data stores `allow_subdomains` as a native
boolean, as the repository's `StubRoller` test fixture does. -/
def rollerNativeBool : Roller where
  client := {}
  write := fun _ _ _ => (some {}, none)
  read := fun _ _ =>
    (some { data := some [("allowed_domains", GoValue.vString "foo.com"),
                          ("allow_subdomains", GoValue.vBool true)] }, none)

/-- Witness for C4: with both fields stored as the matching strings,
`HasRole` answers `(true, nil)`; a native-boolean `allow_subdomains`
value mismatches the string serialization and answers `(false, nil)`. -/
theorem hasRole_spec_witness :
    HasRole rollerStringBool "foo" "foo.com" true = (true, none) ∧
    HasRole rollerNativeBool "foo" "foo.com" true = (false, none) := by
  constructor
  · have h := (hasRole_spec rollerStringBool "foo" "foo.com" true).2.2.2
      { data := some [("allowed_domains", GoValue.vString "foo.com"),
                      ("allow_subdomains", GoValue.vString "true")] }
      [("allowed_domains", GoValue.vString "foo.com"),
       ("allow_subdomains", GoValue.vString "true")] rfl rfl
    rw [h]
    decide
  · decide

/-- C5: `ChildToken` propagates a creation failure with no token, turns
a response without an authorization block and a response with an empty
client token into two distinct errors, and succeeds exactly on a
non-empty client token, which it returns. -/
theorem childToken_spec (t : Tokener) :
    (∀ s e, t.createToken t.token { numUses := 2 } = (s, some e) →
      ChildToken t = .err e) ∧
    (∀ s, t.createToken t.token { numUses := 2 } = (some s, none) →
      s.auth = none → ChildToken t = .err "SecretAuth was nil") ∧
    (∀ s a, t.createToken t.token { numUses := 2 } = (some s, none) →
      s.auth = some a → a.clientToken = "" →
      ChildToken t = .err "ClientToken was empty") ∧
    (∀ s a, t.createToken t.token { numUses := 2 } = (some s, none) →
      s.auth = some a → a.clientToken ≠ "" →
      ChildToken t = .ok a.clientToken) ∧
    ("SecretAuth was nil" ≠ "ClientToken was empty") ∧
    (∀ tok, ChildToken t = .ok tok → tok ≠ "") := by
  refine ⟨?_, ?_, ?_, ?_, by decide, ?_⟩
  · intro s e hr
    simp [ChildToken, hr]
  · intro s hr ha
    simp [ChildToken, hr, ha]
  · intro s a hr ha htok
    simp [ChildToken, hr, ha, htok]
  · intro s a hr ha htok
    simp [ChildToken, hr, ha, htok]
  · intro tok hok
    cases hr : t.createToken t.token { numUses := 2 } with
    | mk s err =>
      cases err with
      | some e => simp [ChildToken, hr] at hok
      | none =>
        cases s with
        | none => simp [ChildToken, hr] at hok
        | some secret =>
          cases ha : secret.auth with
          | none => simp [ChildToken, hr, ha] at hok
          | some a =>
            by_cases htok : a.clientToken = ""
            · simp [ChildToken, hr, ha, htok] at hok
            · simp [ChildToken, hr, ha, htok] at hok
              subst hok
              exact htok

/-- A tokener returning a usable child token, as the repository's
`StubTokener` does. -/
def tokenerOk : Tokener where
  token := {}
  createToken := fun _ _ => (some { auth := some { clientToken := "foo" } }, none)

/-- A tokener whose response has a nil authorization block. -/
def tokenerNilAuth : Tokener where
  token := {}
  createToken := fun _ _ => (some {}, none)

/-- A tokener whose response carries an empty client token. -/
def tokenerEmptyToken : Tokener where
  token := {}
  createToken := fun _ _ => (some { auth := some { clientToken := "" } }, none)

/-- Witness for C5: the success case returns the non-empty token and the
two malformed-response cases produce their distinct errors. -/
theorem childToken_spec_witness :
    ChildToken tokenerOk = .ok "foo" ∧
    ChildToken tokenerNilAuth = .err "SecretAuth was nil" ∧
    ChildToken tokenerEmptyToken = .err "ClientToken was empty" :=
  ⟨(childToken_spec tokenerOk).2.2.2.1
      { auth := some { clientToken := "foo" } } { clientToken := "foo" }
      rfl rfl (by decide),
   (childToken_spec tokenerNilAuth).2.1 {} rfl rfl,
   (childToken_spec tokenerEmptyToken).2.2.1
      { auth := some { clientToken := "" } } { clientToken := "" } rfl rfl rfl⟩

/-- A PKI probe environment whose client creation and write both
succeed. -/
def probePKIEnv : PKIChecker where
  getConfig := {}
  newClient := fun _ => .ok {}
  write := fun _ _ _ => (some {}, none)

/-- Counterexample for C7: the root-CA probe performs a data-plane write
without ever calling `SetToken` — its trace contains a write event but
no token-setting event, so the probe's write is not performed with a
client bound to a credential. -/
theorem clientBinding_counterexample :
    hasWriteEvent (HasRootCert probePKIEnv "example-dot-com" "test.example.com").2 = true ∧
    hasAnySetToken (HasRootCert probePKIEnv "example-dot-com" "test.example.com").2 = false := by
  decide

/-- C7 (amended): the scoped-secret operations `WriteToCubbyhole` and
`ReadFromCubbyhole` each create a fresh client and bind it to the
operation's credential with `SetToken` before their single data-plane
write/read, which is performed with that credential on the client; the
root-CA probe, by contrast, performs its write with a freshly created
client on which no token is ever set. -/
theorem clientBinding_amended :
    (∀ (cw : CubbyholeWriter) (token content : String) (c : Client),
      cw.newClient cw.getConfig = .ok c →
      (WriteToCubbyhole cw token content).2 =
        [Event.evNewClient c, Event.evSetToken c token,
         Event.evWrite { token := token } ("cubbyhole/" ++ token)
           [("irods-config", GoValue.vString content)]] ∧
      allOpsBoundTo (WriteToCubbyhole cw token content).2 token = true ∧
      hasSetTokenEvent (WriteToCubbyhole cw token content).2 token = true) ∧
    (∀ (cr : CubbyholeReader) (token : String) (c : Client),
      cr.newClient cr.getConfig = .ok c →
      (ReadFromCubbyhole cr token).2 =
        [Event.evNewClient c, Event.evSetToken c token,
         Event.evRead { token := token } ("cubbyhole/" ++ token)] ∧
      allOpsBoundTo (ReadFromCubbyhole cr token).2 token = true ∧
      hasSetTokenEvent (ReadFromCubbyhole cr token).2 token = true) ∧
    (∀ (m : PKIChecker) (role commonName : String) (c : Client),
      m.newClient m.getConfig = .ok c →
      (HasRootCert m role commonName).2 =
        [Event.evNewClient c, Event.evWrite c ("pki/issue/" ++ role)
          [("common_name", GoValue.vString commonName)]] ∧
      hasAnySetToken (HasRootCert m role commonName).2 = false) := by
  refine ⟨?_, ?_, ?_⟩
  · intro cw token content c hc
    refine ⟨?_, ?_, ?_⟩ <;>
    · cases hw : cw.write { token := token } ("cubbyhole/" ++ token)
          [("irods-config", GoValue.vString content)] with
      | mk s err =>
        cases err <;>
          simp [WriteToCubbyhole, hc, hw, allOpsBoundTo, hasSetTokenEvent]
  · intro cr token c hc
    refine ⟨?_, ?_, ?_⟩ <;>
    · cases hr : cr.read { token := token } ("cubbyhole/" ++ token) with
      | mk s err =>
        cases err with
        | some e =>
          simp [ReadFromCubbyhole, hc, hr, allOpsBoundTo, hasSetTokenEvent]
        | none =>
          cases s with
          | none =>
            simp [ReadFromCubbyhole, hc, hr, allOpsBoundTo, hasSetTokenEvent]
          | some secret =>
            cases hd : secret.data with
            | none =>
              simp [ReadFromCubbyhole, hc, hr, hd, allOpsBoundTo, hasSetTokenEvent]
            | some d =>
              cases hl : d.lookup "irods-config" with
              | none =>
                simp [ReadFromCubbyhole, hc, hr, hd, hl, allOpsBoundTo,
                  hasSetTokenEvent]
              | some v =>
                by_cases hv : v = GoValue.vNull
                · simp [ReadFromCubbyhole, hc, hr, hd, hl, hv, allOpsBoundTo,
                    hasSetTokenEvent]
                · cases v <;>
                    simp_all [ReadFromCubbyhole, hc, hr, hd, hl, allOpsBoundTo,
                      hasSetTokenEvent]
  · intro m role commonName c hc
    refine ⟨?_, ?_⟩ <;>
    · cases hw : m.write c ("pki/issue/" ++ role)
          [("common_name", GoValue.vString commonName)] with
      | mk s err =>
        cases err with
        | none => simp [HasRootCert, hc, hw, hasAnySetToken]
        | some e =>
          by_cases hsfx : goHasSuffix e caMissingSuffix = true <;>
            simp [HasRootCert, hc, hw, hsfx, hasAnySetToken]

/-- Witness for C7 (amended): on concrete environments the cubbyhole
write and read bind their fresh clients to the credential, and the probe
never sets a token. -/
theorem clientBinding_amended_witness :
    allOpsBoundTo (WriteToCubbyhole storeWriter "tok1" "payload").2 "tok1" = true ∧
    allOpsBoundTo (ReadFromCubbyhole (storeReader []) "tok1").2 "tok1" = true ∧
    hasAnySetToken (HasRootCert caProbeEnv "example-dot-com" "test.example.com").2 = false :=
  ⟨(clientBinding_amended.1 storeWriter "tok1" "payload" {} rfl).2.1,
   (clientBinding_amended.2.1 (storeReader []) "tok1" {} rfl).2.1,
   (clientBinding_amended.2.2 caProbeEnv "example-dot-com" "test.example.com" {} rfl).2⟩

/-- A reader whose stored `"irods-config"` value is a non-nil value that
is not a string. -/
def readerBadType : CubbyholeReader where
  getConfig := {}
  newClient := fun _ => .ok {}
  read := fun _ _ =>
    (some { data := some [("irods-config", GoValue.vBool true)] }, none)

/-- C9: `ReadFromCubbyhole` is not total over well-formed server
responses: on a secret whose `"irods-config"` value is a non-nil
non-string the final unchecked type assertion panics instead of
returning one of the defined errors; and under the precondition that
every stored value at that key is a string (or nil, which the nil check
catches), no input panics. -/
theorem readFromCubbyhole_partiality :
    (ReadFromCubbyhole readerBadType "tok").1 =
      .panicked "interface conversion: the value is not a string" ∧
    (∀ (cr : CubbyholeReader) (token : String) (c : Client),
      cr.newClient cr.getConfig = .ok c →
      (∀ (s : Secret) (d : DataMap) (v : GoValue),
        cr.read { c with token := token } ("cubbyhole/" ++ token) = (some s, none) →
        s.data = some d → d.lookup "irods-config" = some v →
        (∃ str, v = GoValue.vString str) ∨ v = GoValue.vNull) →
      ((ReadFromCubbyhole cr token).1).isPanic = false) := by
  constructor
  · decide
  · intro cr token c hc hpre
    cases hr : cr.read { c with token := token } ("cubbyhole/" ++ token) with
    | mk s err =>
      cases err with
      | some e => simp [ReadFromCubbyhole, hc, hr, GoResult.isPanic]
      | none =>
        cases s with
        | none => simp [ReadFromCubbyhole, hc, hr, GoResult.isPanic]
        | some secret =>
          cases hd : secret.data with
          | none => simp [ReadFromCubbyhole, hc, hr, hd, GoResult.isPanic]
          | some d =>
            cases hl : d.lookup "irods-config" with
            | none => simp [ReadFromCubbyhole, hc, hr, hd, hl, GoResult.isPanic]
            | some v =>
              rcases hpre secret d v hr hd hl with ⟨str, hstr⟩ | hnull
              · subst hstr
                simp [ReadFromCubbyhole, hc, hr, hd, hl, GoResult.isPanic]
              · subst hnull
                simp [ReadFromCubbyhole, hc, hr, hd, hl, GoResult.isPanic]

/-- Witness for C9: the guarded half applied to a store whose value at
the key is a genuine string: no panic. -/
theorem readFromCubbyhole_partiality_witness :
    ((ReadFromCubbyhole
        (storeReader [("cubbyhole/tok", [("irods-config", GoValue.vString "payload")])])
        "tok").1).isPanic = false :=
  readFromCubbyhole_partiality.2
    (storeReader [("cubbyhole/tok", [("irods-config", GoValue.vString "payload")])])
    "tok" {} rfl
    (by
      intro s d v h1 h2 h3
      simp [storeReader, List.lookup] at h1
      subst h1
      simp at h2
      subst h2
      simp [List.lookup] at h3
      subst h3
      exact Or.inl ⟨"payload", rfl⟩)

/-- C10: the scoped-secret store has no caller-supplied key: the write
performs exactly one data-plane write whose data map is the single entry
keyed `"irods-config"`, and the read's outcome is a function of nothing
but the `"irods-config"` entry of the returned data (the checks and
extraction consult no other key). -/
theorem fixedKey_spec :
    (∀ (cw : CubbyholeWriter) (token content : String) (c : Client),
      cw.newClient cw.getConfig = .ok c →
      writeDataMaps (WriteToCubbyhole cw token content).2 =
        [[("irods-config", GoValue.vString content)]]) ∧
    (∀ (cr : CubbyholeReader) (token : String) (c : Client),
      cr.newClient cr.getConfig = .ok c →
      ∀ (s : Secret) (d : DataMap),
        cr.read { c with token := token } ("cubbyhole/" ++ token) = (some s, none) →
        s.data = some d →
        (ReadFromCubbyhole cr token).1 = extractIrodsConfig (d.lookup "irods-config")) := by
  constructor
  · intro cw token content c hc
    cases hw : cw.write { token := token } ("cubbyhole/" ++ token)
        [("irods-config", GoValue.vString content)] with
    | mk s err =>
      cases err <;> simp [WriteToCubbyhole, hc, hw, writeDataMaps]
  · intro cr token c hc s d hr hd
    cases hl : d.lookup "irods-config" with
    | none => simp [ReadFromCubbyhole, extractIrodsConfig, hc, hr, hd, hl]
    | some v =>
      by_cases hv : v = GoValue.vNull
      · subst hv
        simp [ReadFromCubbyhole, extractIrodsConfig, hc, hr, hd, hl]
      · cases v <;>
          simp_all [ReadFromCubbyhole, extractIrodsConfig, hc, hr, hd, hl]

/-- Witness for C10: on concrete environments the write's only data map
is the single `"irods-config"` entry, and the read's result is the
extraction of that entry. -/
theorem fixedKey_spec_witness :
    writeDataMaps (WriteToCubbyhole storeWriter "tok1" "payload").2 =
      [[("irods-config", GoValue.vString "payload")]] ∧
    (ReadFromCubbyhole readerNullVal "t").1 =
      extractIrodsConfig ([("irods-config", GoValue.vNull)].lookup "irods-config") :=
  ⟨fixedKey_spec.1 storeWriter "tok1" "payload" {} rfl,
   fixedKey_spec.2 readerNullVal "t" {} rfl
     { data := some [("irods-config", GoValue.vNull)] }
     [("irods-config", GoValue.vNull)] rfl rfl⟩

end Vaulter
